import Mathlib

/-!
Verification of the MiGPT-Next command-serialization and voice-interaction core
(`apps/example/lib/api-server.js` and `apps/example/lib/tts-service.js`) against
its natural-language specification.  JavaScript strings are modelled as
`List Char`; stateful methods are modelled as explicit state-passing functions
returning `Except String α` (JS exceptions carry their message string); the
device engine and the network-backed TTS provider are modelled as oracles
supplied in an `Env` record.
-/

namespace MiGPT

/-- JavaScript strings, modelled as lists of unicode characters (all the
characters appearing in this development are BMP characters, for which the
JS UTF-16 `length` equals the number of characters). -/
abbrev JStr := List Char

/-- Convert a Lean string literal to the `JStr` model. -/
def str (s : String) : JStr := s.data

/-- Approximation of the JavaScript whitespace class used by String.trim and
in regular expressions (ASCII whitespace plus the common unicode spaces). -/
def isJsSpace (c : Char) : Bool :=
  c = ' ' || c = '\t' || c = '\n' || c = '\r' ||
  c = '\u000B' || c = '\u000C' || c = ' ' || c = '　' || c = '﻿'

/-- Model of JavaScript String.prototype.trim. -/
def jsTrim (s : JStr) : JStr :=
  ((s.dropWhile isJsSpace).reverse.dropWhile isJsSpace).reverse

/-- Model of JavaScript String.prototype.toLowerCase (per-character lowering;
identity on the CJK characters used here). -/
def jsToLower (s : JStr) : JStr := s.map Char.toLower

/-- Model of JavaScript String.prototype.includes (substring containment:
the needle occurs as a prefix of some suffix of the haystack). -/
def jsIncludes (hay needle : JStr) : Bool :=
  match hay with
  | [] => needle.isPrefixOf ([] : JStr)
  | _ :: t => needle.isPrefixOf hay || jsIncludes t needle

/-!
## TTS service model (`tts-service.js`)

The alias table is a JS `Map` modelled as an association list with
insertion-order/overwrite `set` semantics.
-/

/-- The JS constant DEFAULT_PROVIDER. -/
def DEFAULT_PROVIDER : JStr := str "xiaomi"

/-- The alias table `this.aliases`, a JS Map from alias key to target key. -/
abbrev AliasTable := List (JStr × JStr)

/-- The built-in PROVIDER_ALIASES constant. -/
def PROVIDER_ALIASES : AliasTable := [(str "doubao", str "volcano")]

/-- JS `Map.prototype.get`. -/
def aliasGet (t : AliasTable) (k : JStr) : Option JStr :=
  match t.find? (fun p => p.1 = k) with
  | some p => some p.2
  | none => none

/-- JS `Map.prototype.set`: overwrite in place when the key exists, append
otherwise. -/
def aliasSet (t : AliasTable) (k v : JStr) : AliasTable :=
  if t.any (fun p => p.1 = k) then
    t.map (fun p => if p.1 = k then (k, v) else p)
  else
    t ++ [(k, v)]

/-- `TTSService.registerAlias(alias, target)`: normalize both names and store
the pair, failing when either normalizes to the empty string. -/
def registerAlias (t : AliasTable) (aliasName target : JStr) : Except String AliasTable :=
  let aliasKey := jsToLower (jsTrim aliasName)
  let targetKey := jsToLower (jsTrim target)
  if aliasKey = [] ∨ targetKey = [] then
    .error "TTS alias and target are required"
  else
    .ok (aliasSet t aliasKey targetKey)

/-- The case/whitespace normalization applied by `normalizeProvider` before the
alias lookup: substitute the default for an empty (falsy) name, trim, lower. -/
def providerKey (provider : JStr) : JStr :=
  jsToLower (jsTrim (if provider = [] then DEFAULT_PROVIDER else provider))

/-- `TTSService.normalizeProvider(provider)`: normalize, then follow at most
one alias hop (`this.aliases.get(raw) || raw`; a falsy stored target falls
back to the normalized input). -/
def normalizeProvider (t : AliasTable) (provider : JStr) : JStr :=
  let raw := providerKey provider
  match aliasGet t raw with
  | some v => if v = [] then raw else v
  | none => raw

/-!
## Story chunking (`APIServer.splitTextForStory`)
-/

/-- The sentence-terminal punctuation class of the split in
`splitTextForStory` (the JS regular expression `[。！？]`). -/
def isSentenceSep (c : Char) : Bool := c = '。' || c = '！' || c = '？'

/-- Model of `text.split(/[。！？]/)`: the list of maximal separator-free
segments, including empty segments between adjacent separators and at the
ends.  The result is always nonempty. -/
def splitOnSeps : JStr → List JStr
  | [] => [[]]
  | c :: rest =>
    match splitOnSeps rest with
    | [] => [[]]
    | s :: ss => if isSentenceSep c then [] :: s :: ss else (c :: s) :: ss

/-- The accumulation loop of `splitTextForStory`, with the `chunks` and
`current` mutable variables made explicit. -/
def storyAccum (first normal : Nat) : List JStr → List JStr → JStr → List JStr
  | [], chunks, current =>
    if current = [] then chunks else chunks ++ [current]
  | sentence :: rest, chunks, current =>
    let cleanSentence := jsTrim sentence
    if cleanSentence = [] then storyAccum first normal rest chunks current
    else
      let limit := if chunks.length = 0 then first else normal
      let candidate := current ++ cleanSentence ++ ['。']
      if current ≠ [] ∧ candidate.length > limit then
        storyAccum first normal rest (chunks ++ [current]) (cleanSentence ++ ['。'])
      else
        storyAccum first normal rest chunks candidate

/-- `APIServer.splitTextForStory(text, firstChunkMaxChars, normalChunkMaxChars)`. -/
def splitTextForStory (text : JStr) (firstChunkMaxChars normalChunkMaxChars : Nat) : List JStr :=
  storyAccum firstChunkMaxChars normalChunkMaxChars (splitOnSeps text) [] []

/-- The trimmed nonempty sentences of a text, each with the terminator `。`
re-appended: the atomic units from which the story chunks are assembled. -/
def sentenceUnits (text : JStr) : List JStr :=
  ((splitOnSeps text).map jsTrim).filter (fun s => s ≠ []) |>.map
    (fun s => s ++ ['。'])

/-!
## Voice interpreter (`MessageHandler`)

`MessageHandler.handle` is modelled at the classification level: it reads the
wake-up configuration and the conversation-mode flag, and reports which result
is returned to the device and which tasks are submitted to the queue (with the
text payload each task will speak or send to the AI).  The task bodies
themselves are not executed here.
-/

/-- The wake-up and story configuration read by `MessageHandler`. -/
structure WakeupConfig where
  stopKeywords : List JStr
  enterAIMode : List JStr
  exitAIMode : List JStr
  keywords : List JStr
  enterMessage : JStr
  exitMessage : JStr
deriving DecidableEq, Repr

/-- The punctuation removed by `normalizeText` (the JS class `[，。,.!?！？]`;
note it does not include the colon). -/
def isNormPunct (c : Char) : Bool :=
  c = '，' || c = '。' || c = ',' || c = '.' || c = '!' || c = '?' || c = '！' || c = '？'

/-- `MessageHandler.normalizeText`: trim, delete all whitespace, delete the
punctuation class (the trim is subsumed by the whitespace deletion). -/
def normalizeText (text : JStr) : JStr :=
  text.filter (fun c => !(isJsSpace c) && !(isNormPunct c))

/-- `MessageHandler.isStopCommand(normalizedText)`. -/
def isStopCommand (cfg : WakeupConfig) (normalizedText : JStr) : Bool :=
  cfg.stopKeywords.any (fun keyword => jsIncludes normalizedText (normalizeText keyword))

/-- `MessageHandler.isEnterAIModeCommand(normalizedText)`. -/
def isEnterAIModeCommand (cfg : WakeupConfig) (normalizedText : JStr) : Bool :=
  cfg.enterAIMode.any (fun keyword => normalizedText = normalizeText keyword)

/-- `MessageHandler.isExitAIModeCommand(normalizedText)`. -/
def isExitAIModeCommand (cfg : WakeupConfig) (normalizedText : JStr) : Bool :=
  cfg.exitAIMode.any (fun keyword => normalizedText = normalizeText keyword)

/-- `MessageHandler.findMatchedKeyword(text)`: the first configured wake
keyword contained in the raw text. -/
def findMatchedKeyword (cfg : WakeupConfig) (text : JStr) : Option JStr :=
  cfg.keywords.find? (fun keyword => jsIncludes text keyword)

/-- Index of the first occurrence of `needle` in `hay` (JS `indexOf`,
with `none` for -1). -/
def indexOfSub (hay needle : JStr) : Option Nat :=
  match hay with
  | [] => if needle.isPrefixOf ([] : JStr) then some 0 else none
  | _ :: t =>
    if needle.isPrefixOf hay then some 0
    else match indexOfSub t needle with
         | some i => some (i + 1)
         | none => none

/-- The leading characters stripped from the extracted intent (the JS class
`[，。,.!?！？:\s]`: the normalization punctuation plus colon and whitespace). -/
def isIntentLead (c : Char) : Bool := isNormPunct c || c = ':' || isJsSpace c

/-- `MessageHandler.extractUserIntent(fullText, keyword)`: the substring after
the first occurrence of the keyword, trimmed, with the leading punctuation
class stripped.  (The keyword is always present at the call site; when absent,
JS `indexOf` returns -1 and `slice(-1 + keyword.length)` drops
`keyword.length - 1` characters.) -/
def extractUserIntent (fullText keyword : JStr) : JStr :=
  let raw :=
    match indexOfSub fullText keyword with
    | some i => jsTrim (fullText.drop (i + keyword.length))
    | none => jsTrim (fullText.drop (keyword.length - 1))
  raw.dropWhile isIntentLead

/-- The classification result of one utterance: the value returned to the
device (`none` models the JS `undefined` return that lets the device answer by
itself, `some true` models `{handled: true}`), the new conversation-mode flag,
and the tasks submitted to the queue as (type, text payload) pairs. -/
structure HandleOut where
  handled : Option Bool
  newMode : Bool
  tasks : List (String × JStr)
deriving DecidableEq, Repr

/-- `MessageHandler.handle(msg)` at the classification level.  `engineReady`
models `this.engine.get()` being non-null, `mode` the current value of
`apiServer.aiConversationMode`, and `text` the raw `msg.text`. -/
def handleMessage (cfg : WakeupConfig) (engineReady : Bool) (mode : Bool)
    (text : JStr) : HandleOut :=
  if ¬engineReady then { handled := none, newMode := mode, tasks := [] }
  else
    let normalizedText := normalizeText text
    if isStopCommand cfg normalizedText then
      { handled := some true, newMode := mode, tasks := [("voice:stop", [])] }
    else if isEnterAIModeCommand cfg normalizedText then
      { handled := some true, newMode := true,
        tasks := [("voice:enter-ai-mode", cfg.enterMessage)] }
    else if isExitAIModeCommand cfg normalizedText then
      { handled := some true, newMode := false,
        tasks := [("voice:exit-ai-mode", cfg.exitMessage)] }
    else
      let matchedKeyword := findMatchedKeyword cfg text
      let shouldHandleAI := mode || matchedKeyword.isSome
      if ¬shouldHandleAI then { handled := none, newMode := mode, tasks := [] }
      else
        let userText :=
          match matchedKeyword with
          | some keyword => extractUserIntent text keyword
          | none => text
        if userText = [] then { handled := some true, newMode := mode, tasks := [] }
        else { handled := some true, newMode := mode, tasks := [("voice:chat", userText)] }

/-!
## API server model (`APIServer`)

The device engine and the TTS backend are oracles in an `Env` record; every
observable call into them is recorded in an event trace inside the server
state.  Computations have type `M α = ServerState → Except String α ×
ServerState`: a JS method either returns a value or throws an error message,
and in both cases the side effects performed before the throw persist.
-/

/-- One observable call into the device engine or the TTS backend. -/
inductive Event where
  /-- `engine.speaker.abortXiaoAI()` -/
  | abortCall : Event
  /-- `engine.speaker.play({url, blocking})` -/
  | playUrlCall (url : JStr) (blocking : Bool) : Event
  /-- `engine.speaker.play({text})` -/
  | playTextCall (text : JStr) : Event
  /-- `engine.speaker.getPlayingStatus()` with the polled `is_playing` value -/
  | pollCall (playing : Bool) : Event
  /-- `ttsService.synthesize(text)` -/
  | synthCall (text : JStr) : Event
  /-- `engine.askAI(message)` with the message text -/
  | askAICall (text : JStr) : Event
deriving DecidableEq, Repr

/-- The `lastTaskError` record kept by the queue (`atMs` models the JS field
named `at`, a keyword in Lean). -/
structure TaskError where
  type : String
  message : String
  atMs : Nat
deriving DecidableEq, Repr

/-- The mutable fields of `APIServer`, plus the poll cursor into the playback
status oracle and the event trace. -/
structure ServerState where
  queueDepth : Nat
  lastTaskType : Option String
  lastTaskError : Option TaskError
  lastTaskFinishedAt : Option Nat
  lastSpeakMode : Option String
  lastSpeakAt : Option Nat
  /-- model time: the value returned by `Date.now()` -/
  now : Nat
  /-- how many playback-status polls have been issued so far -/
  pollCount : Nat
  trace : List Event
deriving DecidableEq, Repr

/-- An initial server state (the constructor of `APIServer`). -/
def ServerState.init : ServerState :=
  { queueDepth := 0, lastTaskType := none, lastTaskError := none,
    lastTaskFinishedAt := none, lastSpeakMode := none, lastSpeakAt := none,
    now := 0, pollCount := 0, trace := [] }

/-- The read-only environment: configuration plus the oracles describing how
the external collaborators (device engine, TTS backend, AI backend) respond. -/
structure Env where
  /-- `engine?.get?.()` yields an object with both MiNA and MiOT -/
  engineReady : Bool
  /-- `ttsService.canSynthesize()` -/
  canSynthesize : Bool
  /-- `ttsService.getProvider()` -/
  ttsProvider : String
  /-- `ttsService.synthesize(text)`: the audio URL, or a thrown message -/
  synthesize : JStr → Except String JStr
  /-- result of `engine.speaker.abortXiaoAI()` (`none` = resolves) -/
  abortRes : Option String
  /-- result of `engine.speaker.play({url, ...})` for a given URL -/
  playUrlRes : JStr → Option String
  /-- result of `engine.speaker.play({text})` for a given text -/
  playTextRes : JStr → Option String
  /-- `engine.askAI(message).text` for a given message text, or a throw -/
  askAI : JStr → Except String JStr
  /-- the `is_playing` value of the k-th playback-status poll of the run -/
  isPlaying : Nat → Bool
  /-- `config.story.firstChunkMaxChars` -/
  firstChunkMaxChars : Nat
  /-- `config.story.normalChunkMaxChars` (0 models the JS falsy default) -/
  normalChunkMaxChars : Nat
  /-- `config.story.pollIntervalMs` -/
  pollIntervalMs : Nat
  /-- `config.story.waitTimeoutMs` -/
  waitTimeoutMs : Nat

/-- Stateful, possibly-throwing computations over the server state. -/
def M (α : Type) := ServerState → Except String α × ServerState

namespace M

def pure {α : Type} (a : α) : M α := fun s => (.ok a, s)

def bind {α β : Type} (m : M α) (f : α → M β) : M β := fun s =>
  match m s with
  | (.ok a, s') => f a s'
  | (.error e, s') => (.error e, s')

def throw {α : Type} (e : String) : M α := fun s => (.error e, s)

/-- JS try/catch: on a throw from `m`, continue with the handler on the state
reached at the throw. -/
def tryCatch {α : Type} (m : M α) (handler : String → M α) : M α := fun s =>
  match m s with
  | (.ok a, s') => (.ok a, s')
  | (.error e, s') => handler e s'

end M

instance : Monad M where
  pure := M.pure
  bind := M.bind

/-- Append one event to the trace. -/
def emit (e : Event) : M Unit := fun s =>
  (.ok (), { s with trace := s.trace ++ [e] })

/-- Turn an oracle answer (`none` = success) into a result. -/
def ofRes (r : Option String) : Except String Unit :=
  match r with
  | none => .ok ()
  | some e => .error e

/-- `APIServer.getEngineOrThrow()`. -/
def getEngineOrThrow (env : Env) : M Unit := fun s =>
  if env.engineReady then (.ok (), s) else (.error "Engine not ready", s)

/-- `engine.speaker.abortXiaoAI()`. -/
def abortXiaoAI (env : Env) : M Unit := fun s =>
  (ofRes env.abortRes, { s with trace := s.trace ++ [.abortCall] })

/-- `engine.speaker.play({url, blocking})`. -/
def playUrl (env : Env) (url : JStr) (blocking : Bool) : M Unit := fun s =>
  (ofRes (env.playUrlRes url), { s with trace := s.trace ++ [.playUrlCall url blocking] })

/-- `engine.speaker.play({text})`. -/
def playText (env : Env) (text : JStr) : M Unit := fun s =>
  (ofRes (env.playTextRes text), { s with trace := s.trace ++ [.playTextCall text] })

/-- `ttsService.synthesize(text)`. -/
def ttsSynthesize (env : Env) (text : JStr) : M JStr := fun s =>
  (env.synthesize text, { s with trace := s.trace ++ [.synthCall text] })

/-- `engine.askAI(message)` (returning `aiResponse.text || ''`). -/
def askAICall (env : Env) (text : JStr) : M JStr := fun s =>
  (env.askAI text, { s with trace := s.trace ++ [.askAICall text] })

/-- One `engine.speaker.getPlayingStatus()` poll: consumes the next value of
the status oracle and records it. -/
def pollStatus (env : Env) : M Bool := fun s =>
  let playing := env.isPlaying s.pollCount
  (.ok playing,
   { s with pollCount := s.pollCount + 1, trace := s.trace ++ [.pollCall playing] })

/-- Record the `lastSpeakMode`/`lastSpeakAt` updates of `speakByText`. -/
def setLastSpeak (mode : String) : M Unit := fun s =>
  (.ok (), { s with lastSpeakMode := some mode, lastSpeakAt := some s.now })

/-- The `while` loop of `APIServer.waitForAudioComplete`, with the elapsed
time made explicit: each iteration first checks `Date.now() - startTime <
timeout`, polls, returns on `!is_playing`, and otherwise sleeps for the poll
interval.  Model time advances only during the sleep, so the iteration at
`elapsed` happens `elapsed` milliseconds after the start.  `fuel` bounds the
recursion; the caller passes `waitTimeoutMs + 1`, which is never exhausted
when `pollIntervalMs ≥ 1` because the time check fails first. -/
def waitLoop (env : Env) : Nat → Nat → M Unit
  | 0, _ => M.throw "等待音频播放超时"
  | fuel + 1, elapsed => fun s =>
    if elapsed < env.waitTimeoutMs then
      match pollStatus env s with
      | (.ok playing, s') =>
        if playing then waitLoop env fuel (elapsed + env.pollIntervalMs) s'
        else (.ok (), s')
      | (.error e, s') => (.error e, s')
    else
      (.error "等待音频播放超时", s)

/-- `APIServer.waitForAudioComplete()`. -/
def waitForAudioComplete (env : Env) : M Unit := do
  getEngineOrThrow env
  waitLoop env (env.waitTimeoutMs + 1) 0

/-- The `for` loop of `APIServer.speakStoryMode`: synthesize chunk `i`, play
it immediately when `i = 0`, otherwise wait for the previous chunk to finish
playing first. -/
def storyChunkLoop (env : Env) : Nat → List JStr → M Unit
  | _, [] => M.pure ()
  | i, chunk :: rest => do
    let audioUrl ← ttsSynthesize env chunk
    if i = 0 then
      playUrl env audioUrl false
    else do
      waitForAudioComplete env
      playUrl env audioUrl false
    storyChunkLoop env (i + 1) rest

/-- `APIServer.speakStoryMode(text)`. -/
def speakStoryMode (env : Env) (text : JStr) : M String := do
  getEngineOrThrow env
  let first := env.firstChunkMaxChars
  let normal := if env.normalChunkMaxChars = 0 then first else env.normalChunkMaxChars
  let chunks := splitTextForStory text first normal
  storyChunkLoop env 0 chunks
  M.pure "story"

/-- `APIServer.speakByText(text, {interrupt, storyMode})`. -/
def speakByText (env : Env) (text : JStr) (interrupt storyMode : Bool) : M String := do
  getEngineOrThrow env
  if interrupt then abortXiaoAI env else M.pure ()
  let ttsProvider := env.ttsProvider
  let recovered : M (Option String) :=
    if env.canSynthesize then
      M.tryCatch
        (if storyMode then do
          let _ ← speakStoryMode env text
          setLastSpeak ("tts:" ++ ttsProvider ++ ":story")
          M.pure (some ("tts:" ++ ttsProvider ++ ":story"))
        else do
          let audioUrl ← ttsSynthesize env text
          playUrl env audioUrl false
          setLastSpeak ("tts:" ++ ttsProvider)
          M.pure (some ("tts:" ++ ttsProvider)))
        (fun _ => M.pure none)
    else M.pure none
  let r ← recovered
  match r with
  | some mode => M.pure mode
  | none => do
    playText env text
    setLastSpeak "xiaomi"
    M.pure "xiaomi"

/-- `APIServer.askAndSpeak(text, {interrupt, storyMode})`. -/
def askAndSpeak (env : Env) (text : JStr) (interrupt storyMode : Bool) :
    M (Option String × JStr) := do
  getEngineOrThrow env
  if interrupt then abortXiaoAI env else M.pure ()
  let replyText ← askAICall env text
  if replyText = [] then M.pure (none, ([] : JStr))
  else do
    let mode ← speakByText env replyText false storyMode
    M.pure (some mode, replyText)

/-- `APIServer.playByUrl(url, {interrupt, blocking})`. -/
def playByUrl (env : Env) (url : JStr) (interrupt blocking : Bool) : M String := do
  getEngineOrThrow env
  if interrupt then abortXiaoAI env else M.pure ()
  playUrl env url blocking
  M.pure "url"

/-!
## Task queue (`APIServer.enqueueTask`)

`this.taskQueue = this.taskQueue.then(wrappedTask, wrappedTask)` chains every
wrapped task onto the current tail with the same function as the fulfilled and
the rejected continuation, so the wrapped task runs when the previous tail
settles, whether it resolved or rejected, and ignores its settled value.
`runChain` makes that chain explicit for a list of already-submitted tasks.
-/

/-- The `wrappedTask` closure built by `enqueueTask`: run the body, record
`lastTaskError` (cleared on success, set on failure, with the error
re-thrown), and in the `finally` block decrement the queue depth
(`Math.max(0, depth - 1)`, which is the truncated `Nat` subtraction) and
record `lastTaskType` / `lastTaskFinishedAt`. -/
def wrappedTask {α : Type} (taskType : String) (body : M α) : M α := fun s =>
  match body s with
  | (.ok v, s₁) =>
    (.ok v,
     { s₁ with lastTaskError := none,
               queueDepth := s₁.queueDepth - 1,
               lastTaskType := some taskType,
               lastTaskFinishedAt := some s₁.now })
  | (.error e, s₁) =>
    (.error e,
     { s₁ with lastTaskError := some { type := taskType, message := e, atMs := s₁.now },
               queueDepth := s₁.queueDepth - 1,
               lastTaskType := some taskType,
               lastTaskFinishedAt := some s₁.now })

/-- A submitted task: its `meta.type` and its body. -/
abbrev QTask (α : Type) := String × M α

/-- Execution of the promise chain over a list of submitted tasks, starting
from a tail that settled with `prev`.  Returns the settled value and state of
the final tail together with the list of each task's own settled outcome (the
value of the promise `enqueueTask` returned to that task's submitter).  The
head task runs regardless of `prev` — `.then(w, w)` installs the same
continuation for both branches — and `wrappedTask` ignores the settled value
of the previous tail. -/
def runChain {α : Type} (prev : Except String α) :
    List (QTask α) → ServerState →
    (Except String α × ServerState) × List (Except String α)
  | [], s => ((prev, s), [])
  | (taskType, body) :: rest, s =>
    let r := wrappedTask taskType body s
    let rec' := runChain r.1 rest r.2
    (rec'.1, r.1 :: rec'.2)

/-- `enqueueTask` for a single request submitted to an idle queue (the resolved
tail): the submission increments `queueDepth`, then the wrapped task runs. -/
def enqueueOne {α : Type} (taskType : String) (body : M α) : M α := fun s =>
  wrappedTask taskType body { s with queueDepth := s.queueDepth + 1 }

/-!
## HTTP handlers (`handleSpeak` / `handleChat` / `handlePlay`)
-/

/-- The parsed body of a speak or chat request. -/
structure SpeakBody where
  text : JStr
  interrupt : Option Bool
  storyMode : Option Bool

/-- The parsed body of a play request. -/
structure PlayBody where
  url : JStr
  interrupt : Option Bool
  blocking : Option Bool

/-- The success payload of `handleSpeak` (the `ok`/`type` constants omitted). -/
structure SpeakResp where
  mode : String
  text : JStr
deriving DecidableEq, Repr

/-- The success payload of `handleChat`. -/
structure ChatResp where
  mode : Option String
  replyText : JStr
deriving DecidableEq, Repr

/-- `APIServer.handleSpeak(body)`: validate the text, then queue a
`speakByText` task of type `api:speak` and await it. -/
def handleSpeak (env : Env) (body : SpeakBody) : M SpeakResp :=
  let text := jsTrim body.text
  if text = [] then M.throw "text is required"
  else
    let interrupt := body.interrupt ≠ some false
    let storyMode := body.storyMode = some true
    do
      let mode ← enqueueOne "api:speak" (speakByText env text interrupt storyMode)
      M.pure { mode := mode, text := text }

/-- `APIServer.handleChat(body)`: validate the text, then queue an
`askAndSpeak` task of type `api:chat` and await it. -/
def handleChat (env : Env) (body : SpeakBody) : M ChatResp :=
  let text := jsTrim body.text
  if text = [] then M.throw "text is required"
  else
    let interrupt := body.interrupt ≠ some false
    let storyMode := body.storyMode = some true
    do
      let result ← enqueueOne "api:chat" (askAndSpeak env text interrupt storyMode)
      M.pure { mode := result.1, replyText := result.2 }

/-- `APIServer.handlePlay(body)`: validate the URL, then queue a `playByUrl`
task of type `api:play` and await it. -/
def handlePlay (env : Env) (body : PlayBody) : M String :=
  let url := jsTrim body.url
  if url = [] then M.throw "url is required"
  else
    let interrupt := body.interrupt ≠ some false
    let blocking := body.blocking = some true
    enqueueOne "api:play" (playByUrl env url interrupt blocking)

/-!
## Derived predicates used by the theorems
-/

/-- The sentence units of a sentence list: trimmed, empty sentences dropped,
terminator `。` re-appended (the shape in which `splitTextForStory` consumes
its sentences). -/
def unitsOf (sents : List JStr) : List JStr :=
  ((sents.map jsTrim).filter (fun s => s ≠ [])).map (fun s => s ++ ['。'])

/-- Chunk-size discipline of the story splitter: the chunk built from the
first group of sentence units respects `lim` unless the group is a single
unit, and every later group respects `n` unless it is a single unit.  (A
single oversized sentence is kept whole, so only multi-unit groups are
bounded.) -/
def GroupsBounded (lim n : Nat) : List (List JStr) → Prop
  | [] => True
  | g :: rest => (2 ≤ g.length → g.flatten.length ≤ lim) ∧ GroupsBounded n n rest

/-- Is this event a `play({url})` device call? -/
def isPlayUrlEvent : Event → Bool
  | .playUrlCall _ _ => true
  | _ => false

/-- Trace discipline after the first play command: every further play command
is immediately preceded by a status poll that observed `is_playing = false`.
`prev` is the event immediately preceding the remaining trace. -/
def pacedAfterFirstPlay (prev : Event) : List Event → Bool
  | [] => true
  | e :: rest =>
    match e with
    | .playUrlCall _ _ => (prev = Event.pollCall false) && pacedAfterFirstPlay e rest
    | _ => pacedAfterFirstPlay e rest

/-- Story pacing discipline of a trace: no status poll occurs before the first
play command (chunk 0 plays immediately), and every later play command is
immediately preceded by a poll that observed the device idle. -/
def storyPaced : List Event → Bool
  | [] => true
  | e :: rest =>
    match e with
    | .pollCall _ => false
    | .playUrlCall u b => pacedAfterFirstPlay (Event.playUrlCall u b) rest
    | _ => storyPaced rest

/-- A well-paced non-initial story block: one synthesis call, then one or
more status polls of which the last observed the device idle, then the play
command for the synthesized chunk. -/
def BlockGood (b : List Event) : Prop :=
  ∃ chunk pres url,
    b = Event.synthCall chunk ::
          (pres ++ [Event.pollCall false, Event.playUrlCall url false]) ∧
    (∀ e ∈ pres, ∃ v, e = Event.pollCall v)

/-- Number of polls the wait loop issues before giving up when every poll
reports the device still playing (used to state the timeout behavior). -/
def busyIters (interval timeout : Nat) : Nat → Nat → Nat
  | 0, _ => 0
  | fuel + 1, elapsed =>
    if elapsed < timeout then busyIters interval timeout fuel (elapsed + interval) + 1
    else 0

/-!
## Concrete configurations and environments used by witnesses and
counterexamples
-/

/-- A benign wake-up configuration: the stop / enter / exit phrase lists do
not collide with the wake keyword `请`. -/
def demoWakeCfg : WakeupConfig :=
  { stopKeywords := [str "闭嘴"], enterAIMode := [str "进入AI模式"],
    exitAIMode := [str "退出模式"], keywords := [str "请"],
    enterMessage := str "已进入", exitMessage := str "已退出" }

/-- A configuration in which an utterance can contain the wake keyword and
still be a stop command: stopKeywords = ["告诉"], keywords = ["请"]. -/
def clashWakeCfg : WakeupConfig :=
  { stopKeywords := [str "告诉"], enterAIMode := [], exitAIMode := [],
    keywords := [str "请"], enterMessage := [], exitMessage := [] }

/-- A configuration in which the exit phrase `退下` contains the stop keyword
`退`, so the stop branch intercepts the exit command. -/
def exitClashCfg : WakeupConfig :=
  { stopKeywords := [str "退"], enterAIMode := [], exitAIMode := [str "退下"],
    keywords := [], enterMessage := str "进入", exitMessage := str "再见" }

/-- A healthy environment: engine ready, synthesis-capable provider that
succeeds on every text, all device calls succeed, device never reports
playing, story limits 5/10. -/
def demoEnv : Env :=
  { engineReady := true, canSynthesize := true, ttsProvider := "volcano",
    synthesize := fun t => .ok ('u' :: t),
    abortRes := none, playUrlRes := fun _ => none, playTextRes := fun _ => none,
    askAI := fun t => .ok t, isPlaying := fun _ => false,
    firstChunkMaxChars := 5, normalChunkMaxChars := 10,
    pollIntervalMs := 1, waitTimeoutMs := 3 }

/-- Environment whose synthesis succeeds on the first story chunk of
`第一句。第二句。第三句。` and fails on every other text. -/
def storyFailEnv : Env :=
  { demoEnv with
    synthesize := fun t =>
      if t = str "第一句。" then .ok (str "url0")
      else .error "TTS 服务错误: code=3001, message=bad" }

/-- Environment whose synthesis always fails. -/
def synthFailEnv : Env :=
  { demoEnv with synthesize := fun _ => .error "TTS HTTP 请求失败: 500" }

/-- Environment whose device reports `is_playing = true` on every poll. -/
def busyEnv : Env := { demoEnv with isPlaying := fun _ => true }

/-- Environment with no synthesis capability (the built-in `xiaomi`
provider). -/
def xiaomiEnv : Env := { demoEnv with canSynthesize := false, ttsProvider := "xiaomi" }

/-- Environment in which the device engine is unavailable. -/
def engineDownEnv : Env := { demoEnv with engineReady := false }

/-!
## Theorems

Shared unfolding lemmas for the `M` monad, then one theorem per claim with
its witness or counterexample.
-/

theorem M.bind_eq {α β : Type} (m : M α) (f : α → M β) : m >>= f = M.bind m f := rfl

theorem M.pure_eq {α : Type} (a : α) : (Pure.pure a : M α) = M.pure a := rfl

/-!
### C8: alias resolution
-/

/-- C8 (amended): resolution normalizes case/whitespace and follows exactly
one alias hop.  For every registered alias whose stored target is normalized
and not itself an alias key, resolving the alias agrees with resolving the
target (both give the target); and resolving any name with no registered
alias never fails — it returns the literal normalized input. -/
theorem alias_resolution (t : AliasTable) :
    (∀ p target : JStr,
        aliasGet t (providerKey p) = some target →
        target ≠ [] →
        providerKey target = target →
        aliasGet t target = none →
        normalizeProvider t p = normalizeProvider t target ∧
        normalizeProvider t p = target) ∧
    (∀ q : JStr, aliasGet t (providerKey q) = none →
        normalizeProvider t q = providerKey q) := by
  constructor
  · intro p target hreg hne hnorm hnochain
    have h₁ : normalizeProvider t p = target := by
      simp only [normalizeProvider, hreg]
      simp [hne]
    have h₂ : normalizeProvider t target = target := by
      simp only [normalizeProvider, hnorm, hnochain]
    exact ⟨h₁.trans h₂.symm, h₁⟩
  · intro q h
    simp only [normalizeProvider, h]

/-- Witness for C8: in the built-in table, `doubao` (entered as `"DouBao "`)
is a registered alias for `volcano`, resolution of both sides agrees on
`volcano`, and the unregistered name `unknown` resolves to itself. -/
theorem alias_resolution_witness :
    aliasGet PROVIDER_ALIASES (providerKey (str "DouBao ")) = some (str "volcano") ∧
    normalizeProvider PROVIDER_ALIASES (str "DouBao ")
      = normalizeProvider PROVIDER_ALIASES (str "volcano") ∧
    normalizeProvider PROVIDER_ALIASES (str "DouBao ") = str "volcano" ∧
    normalizeProvider PROVIDER_ALIASES (str "unknown") = providerKey (str "unknown") := by
  refine ⟨by decide, ?_, ?_, ?_⟩
  · exact ((alias_resolution PROVIDER_ALIASES).1 (str "DouBao ") (str "volcano")
      (by decide) (by decide) (by decide) (by decide)).1
  · exact ((alias_resolution PROVIDER_ALIASES).1 (str "DouBao ") (str "volcano")
      (by decide) (by decide) (by decide) (by decide)).2
  · exact (alias_resolution PROVIDER_ALIASES).2 (str "unknown") (by decide)

/-- Counterexample for C8 as stated: after the (accepted) registrations
a → b and b → c, the name `a` is a registered alias with target `b`, yet
resolving the alias gives `b` while resolving its target gives `c` —
one-hop resolution does not collapse alias chains. -/
theorem alias_resolution_cex :
    registerAlias PROVIDER_ALIASES (str "a") (str "b")
      = .ok [(str "doubao", str "volcano"), (str "a", str "b")] ∧
    registerAlias [(str "doubao", str "volcano"), (str "a", str "b")] (str "b") (str "c")
      = .ok [(str "doubao", str "volcano"), (str "a", str "b"), (str "b", str "c")] ∧
    aliasGet [(str "doubao", str "volcano"), (str "a", str "b"), (str "b", str "c")]
        (str "a") = some (str "b") ∧
    normalizeProvider [(str "doubao", str "volcano"), (str "a", str "b"), (str "b", str "c")]
        (str "a") = str "b" ∧
    normalizeProvider [(str "doubao", str "volcano"), (str "a", str "b"), (str "b", str "c")]
        (str "b") = str "c" ∧
    str "b" ≠ str "c" := by
  refine ⟨by rfl, by rfl, by decide, by decide, by decide, by decide⟩

/-!
### C5: story chunking
-/

theorem sentenceUnits_eq (text : JStr) :
    sentenceUnits text = unitsOf (splitOnSeps text) := rfl

theorem unitsOf_cons (s : JStr) (rest : List JStr) :
    unitsOf (s :: rest) =
      if jsTrim s = [] then unitsOf rest
      else (jsTrim s ++ ['。']) :: unitsOf rest := by
  by_cases h : jsTrim s = [] <;> simp [unitsOf, h]

theorem flatten_ne_nil {l : List JStr} (hl : l ≠ []) (hu : ∀ u ∈ l, u ≠ []) :
    l.flatten ≠ [] := by
  cases l with
  | nil => exact absurd rfl hl
  | cons u us =>
    have : u ≠ [] := hu u (by simp)
    simp only [List.flatten_cons]
    intro h
    exact this (List.append_eq_nil.mp h).1

/-- Invariant of the accumulation loop of `splitTextForStory`: starting from
any already-flushed `chunks` and a current chunk that is the concatenation of
the nonempty sentence-unit list `curUnits` (bounded when it holds at least
two units), the loop extends `chunks` with chunks that are exactly the
concatenations of a partition of `curUnits ++ unitsOf sents` into nonempty
consecutive groups, each multi-unit group respecting its chunk's limit. -/
theorem storyAccum_partition (f n : Nat) :
    ∀ (sents : List JStr) (chunks : List JStr) (curUnits : List JStr),
      (∀ u ∈ curUnits, u ≠ []) →
      (2 ≤ curUnits.length →
        curUnits.flatten.length ≤ (if chunks.length = 0 then f else n)) →
      ∃ groups : List (List JStr),
        groups.flatten = curUnits ++ unitsOf sents ∧
        (∀ g ∈ groups, g ≠ []) ∧
        GroupsBounded (if chunks.length = 0 then f else n) n groups ∧
        storyAccum f n sents chunks curUnits.flatten
          = chunks ++ groups.map List.flatten := by
  intro sents
  induction sents with
  | nil =>
    intro chunks curUnits hne hbound
    by_cases hcur : curUnits.flatten = []
    · have hnil : curUnits = [] := by
        by_contra h
        exact flatten_ne_nil h hne hcur
      subst hnil
      exact ⟨[], by simp [unitsOf], by simp, trivial, by simp [storyAccum]⟩
    · refine ⟨[curUnits], by simp [unitsOf], ?_, ⟨hbound, trivial⟩, ?_⟩
      · intro g hg
        rw [List.mem_singleton] at hg
        subst hg
        intro h
        subst h
        exact hcur rfl
      · simp [storyAccum, hcur]
  | cons sRaw rest ih =>
    intro chunks curUnits hne hbound
    by_cases hclean : jsTrim sRaw = []
    · obtain ⟨groups, hflat, hgne, hgb, hrun⟩ := ih chunks curUnits hne hbound
      refine ⟨groups, ?_, hgne, hgb, ?_⟩
      · rw [unitsOf_cons, if_pos hclean]
        exact hflat
      · rw [show storyAccum f n (sRaw :: rest) chunks curUnits.flatten
              = storyAccum f n rest chunks curUnits.flatten by
            simp [storyAccum, hclean]]
        exact hrun
    · by_cases hcond : curUnits.flatten ≠ [] ∧
        (curUnits.flatten ++ jsTrim sRaw ++ ['。']).length
          > (if chunks.length = 0 then f else n)
      · -- flush the current chunk and start a new one with this sentence
        have hcurne : curUnits ≠ [] := by
          intro h
          rw [h] at hcond
          exact hcond.1 rfl
        obtain ⟨groups', hflat', hgne', hgb', hrun'⟩ :=
          ih (chunks ++ [curUnits.flatten]) [jsTrim sRaw ++ ['。']]
            (by intro u hu; rw [List.mem_singleton] at hu; subst hu; simp)
            (by intro h; simp at h)
        refine ⟨curUnits :: groups', ?_, ?_, ?_, ?_⟩
        · rw [unitsOf_cons, if_neg hclean, List.flatten_cons, hflat']
          simp
        · intro g hg
          rcases List.mem_cons.mp hg with h | h
          · subst h; exact hcurne
          · exact hgne' g h
        · refine ⟨hbound, ?_⟩
          have : (if (chunks ++ [curUnits.flatten]).length = 0 then f else n) = n := by
            simp
          rw [this] at hgb'
          exact hgb'
        · rw [show storyAccum f n (sRaw :: rest) chunks curUnits.flatten
                = storyAccum f n rest (chunks ++ [curUnits.flatten])
                    (jsTrim sRaw ++ ['。']) by
              simp only [storyAccum]
              rw [if_neg hclean, if_pos hcond]]
          rw [show (jsTrim sRaw ++ ['。'])
                = ([jsTrim sRaw ++ ['。']] : List JStr).flatten by simp]
          rw [hrun']
          simp
      · -- accumulate this sentence onto the current chunk
        obtain ⟨groups, hflat, hgne, hgb, hrun⟩ :=
          ih chunks (curUnits ++ [jsTrim sRaw ++ ['。']])
            (by
              intro u hu
              rcases List.mem_append.mp hu with h | h
              · exact hne u h
              · rw [List.mem_singleton] at h; subst h; simp)
            (by
              intro hlen
              rcases not_and_or.mp hcond with h | h
              · have hcurnil : curUnits = [] := by
                  by_contra hc
                  exact h (flatten_ne_nil hc hne)
                subst hcurnil
                simp at hlen
              · rw [List.flatten_append]
                simp only [List.flatten_cons, List.flatten_nil, List.append_nil]
                rw [← List.append_assoc]
                omega)
        refine ⟨groups, ?_, hgne, hgb, ?_⟩
        · rw [hflat, unitsOf_cons, if_neg hclean]
          simp
        · rw [show storyAccum f n (sRaw :: rest) chunks curUnits.flatten
                = storyAccum f n rest chunks
                    (curUnits.flatten ++ jsTrim sRaw ++ ['。']) by
              simp only [storyAccum]
              rw [if_neg hclean, if_neg hcond]]
          rw [show curUnits.flatten ++ jsTrim sRaw ++ ['。']
                = (curUnits ++ [jsTrim sRaw ++ ['。']]).flatten by
              rw [List.flatten_append]; simp]
          exact hrun

/-- C5: story chunking splits the input on sentence-terminal punctuation and
greedily accumulates whole sentences into chunks, the first chunk limited by
`firstChunkMaxChars` and later chunks by `normalChunkMaxChars`; concretely,
`"第一句。第二句。第三句。"` with limits 5/10 gives a first chunk holding only
the first sentence and a second chunk `"第二句。第三句。"` within 10
characters; in general every chunk is the concatenation of consecutive whole
sentence units (no sentence is split mid-sentence) and a chunk exceeds its
limit only when it consists of a single sentence. -/
theorem story_chunking :
    splitTextForStory (str "第一句。第二句。第三句。") 5 10
      = [str "第一句。", str "第二句。第三句。"] ∧
    (∀ (text : JStr) (first normal : Nat),
      ∃ groups : List (List JStr),
        groups.flatten = sentenceUnits text ∧
        (∀ g ∈ groups, g ≠ []) ∧
        GroupsBounded first normal groups ∧
        splitTextForStory text first normal = groups.map List.flatten) := by
  constructor
  · decide
  · intro text first normal
    have h := storyAccum_partition first normal (splitOnSeps text) [] []
      (by intro u hu; simp at hu) (by intro h; simp at h)
    simp only [List.length_nil, if_pos rfl, List.flatten_nil, List.nil_append] at h
    obtain ⟨groups, hflat, hgne, hgb, hrun⟩ := h
    exact ⟨groups, by rw [sentenceUnits_eq]; exact hflat, hgne, hgb, hrun⟩

/-- Witness for C5: the partition exists for the concrete example of the
claim. -/
theorem story_chunking_witness :
    ∃ groups : List (List JStr),
      groups.flatten = sentenceUnits (str "第一句。第二句。第三句。") ∧
      (∀ g ∈ groups, g ≠ []) ∧
      GroupsBounded 5 10 groups ∧
      splitTextForStory (str "第一句。第二句。第三句。") 5 10
        = groups.map List.flatten :=
  story_chunking.2 (str "第一句。第二句。第三句。") 5 10

/-!
### C7: wake-keyword classification and intent extraction
-/

/-- C7 (amended): an utterance containing a configured wake keyword while
conversation mode is inactive, *provided it is not recognized as a stop,
enter-AI-mode or exit-AI-mode command* (those checks run first), is classified
as an AI query whose intent is the raw substring after the first occurrence of
the matched keyword with leading punctuation/whitespace stripped; an empty
extracted intent yields a handled result with no queued task (no AI call). -/
theorem wake_keyword_classification (cfg : WakeupConfig) (text kw : JStr)
    (hmatch : findMatchedKeyword cfg text = some kw)
    (hstop : isStopCommand cfg (normalizeText text) = false)
    (henter : isEnterAIModeCommand cfg (normalizeText text) = false)
    (hexit : isExitAIModeCommand cfg (normalizeText text) = false) :
    handleMessage cfg true false text =
      (if extractUserIntent text kw = [] then
        { handled := some true, newMode := false, tasks := [] }
      else
        { handled := some true, newMode := false,
          tasks := [("voice:chat", extractUserIntent text kw)] }) := by
  simp [handleMessage, hstop, henter, hexit, hmatch]

/-- Witness for C7: with `keywords = ["请"]`, the utterance `请告诉我天气`
is classified as an AI query with intent `告诉我天气`, and the utterance
`请。`, whose extracted intent is empty, is handled with no queued task. -/
theorem wake_keyword_classification_witness :
    findMatchedKeyword demoWakeCfg (str "请告诉我天气") = some (str "请") ∧
    handleMessage demoWakeCfg true false (str "请告诉我天气") =
      { handled := some true, newMode := false,
        tasks := [("voice:chat", str "告诉我天气")] } ∧
    handleMessage demoWakeCfg true false (str "请。") =
      { handled := some true, newMode := false, tasks := [] } := by
  refine ⟨by decide, ?_, ?_⟩
  · rw [wake_keyword_classification demoWakeCfg (str "请告诉我天气") (str "请")
      (by decide) (by decide) (by decide) (by decide)]
    decide
  · rw [wake_keyword_classification demoWakeCfg (str "请。") (str "请")
      (by decide) (by decide) (by decide) (by decide)]
    decide

/-- Counterexample for C7 as stated: with `keywords = ["请"]` and
`stopKeywords = ["告诉"]`, the utterance `请告诉我天气` contains the wake
keyword and conversation mode is inactive, yet it is classified as a stop
command, not as an AI query. -/
theorem wake_keyword_classification_cex :
    (findMatchedKeyword clashWakeCfg (str "请告诉我天气")).isSome = true ∧
    handleMessage clashWakeCfg true false (str "请告诉我天气") =
      { handled := some true, newMode := false, tasks := [("voice:stop", [])] } ∧
    (handleMessage clashWakeCfg true false (str "请告诉我天气")).tasks.all
      (fun p => p.1 ≠ "voice:chat") = true := by
  refine ⟨by decide, by decide, by decide⟩

/-!
### C10: exit-AI-mode handling is state-independent
-/

/-- C10 (amended): an utterance normalizing to an exitAIMode phrase that is
not also recognized as a stop or enter-AI-mode command (those checks run
first) is handled identically in every conversation state: even when the mode
flag is already false it is set to false, exactly one task of type
`voice:exit-ai-mode` speaking the configured exit message is queued, and the
result is handled with no AI query dispatched. -/
theorem exit_mode_state_independent (cfg : WakeupConfig) (mode : Bool) (text : JStr)
    (hexit : isExitAIModeCommand cfg (normalizeText text) = true)
    (hstop : isStopCommand cfg (normalizeText text) = false)
    (henter : isEnterAIModeCommand cfg (normalizeText text) = false) :
    handleMessage cfg true mode text =
      { handled := some true, newMode := false,
        tasks := [("voice:exit-ai-mode", cfg.exitMessage)] } := by
  simp [handleMessage, hstop, henter, hexit]

/-- Witness for C10: with `exitAIMode = ["退出模式"]`, the utterance
`退出模式` produces the identical exit handling whether conversation mode is
currently active or inactive. -/
theorem exit_mode_state_independent_witness :
    handleMessage demoWakeCfg true true (str "退出模式") =
      { handled := some true, newMode := false,
        tasks := [("voice:exit-ai-mode", str "已退出")] } ∧
    handleMessage demoWakeCfg true false (str "退出模式") =
      { handled := some true, newMode := false,
        tasks := [("voice:exit-ai-mode", str "已退出")] } := by
  constructor
  · rw [exit_mode_state_independent demoWakeCfg true (str "退出模式")
      (by decide) (by decide) (by decide)]
    decide
  · rw [exit_mode_state_independent demoWakeCfg false (str "退出模式")
      (by decide) (by decide) (by decide)]
    decide

/-- Counterexample for C10 as stated: with `exitAIMode = ["退下"]` and
`stopKeywords = ["退"]`, the utterance `退下` normalizes to an exitAIMode
phrase, yet it is intercepted by the stop branch: the conversation-mode flag
stays true and no `voice:exit-ai-mode` task is queued. -/
theorem exit_mode_state_independent_cex :
    isExitAIModeCommand exitClashCfg (normalizeText (str "退下")) = true ∧
    handleMessage exitClashCfg true true (str "退下") =
      { handled := some true, newMode := true, tasks := [("voice:stop", [])] } := by
  refine ⟨by decide, by decide⟩

/-!
### C1: task-queue FIFO ordering and liveness under failure
-/

/-- C1: for every sequence of submitted tasks, (a) every task settles — the
outcome list has one entry per task, so a failing task never prevents a later
one from executing; (b) execution is independent of how the previous queue
tail settled (`.then(w, w)` chains the same continuation on both branches), so
the tail always advances whether the prior task succeeded or failed; (c) the
i-th outcome is exactly the result of running the i-th task body on the state
left by the first i tasks — tasks run one at a time in submission order; and
(d) concretely, a throwing task is followed by a successful later task. -/
theorem task_queue_fifo_liveness {α : Type} :
    (∀ (tasks : List (QTask α)) (s : ServerState) (prev prev' : Except String α),
      ((runChain prev tasks s).2).length = tasks.length ∧
      (runChain prev tasks s).2 = (runChain prev' tasks s).2 ∧
      (runChain prev tasks s).1.2 = (runChain prev' tasks s).1.2 ∧
      (∀ i : Nat,
        ((runChain prev tasks s).2).get? i =
          (tasks.get? i).map
            (fun t => (wrappedTask t.1 t.2 ((runChain prev (tasks.take i) s).1.2)).1))) ∧
    (runChain (α := String) (.ok "idle")
        [("a", M.throw "boom"), ("b", M.pure "done")] ServerState.init).2
      = [.error "boom", .ok "done"] := by
  constructor
  · intro tasks
    induction tasks with
    | nil =>
      intro s prev prev'
      refine ⟨rfl, rfl, rfl, ?_⟩
      intro i
      simp [runChain]
    | cons t ts ih =>
      intro s prev prev'
      obtain ⟨tty, tbody⟩ := t
      refine ⟨?_, rfl, rfl, ?_⟩
      · simpa [runChain] using
          (ih (wrappedTask tty tbody s).2 (wrappedTask tty tbody s).1
            (wrappedTask tty tbody s).1).1
      · intro i
        cases i with
        | zero => simp [runChain]
        | succ j =>
          have hih := (ih (wrappedTask tty tbody s).2 (wrappedTask tty tbody s).1
            (wrappedTask tty tbody s).1).2.2.2 j
          simpa [runChain] using hih
  · rfl

/-- Witness for C1: a concrete two-task queue whose first task throws — both
tasks settle, in order, and the outcome list is unchanged when the previous
queue tail had itself rejected. -/
theorem task_queue_fifo_liveness_witness :
    ((runChain (α := String) (.ok "idle")
        [("a", M.throw "boom"), ("b", M.pure "done")] ServerState.init).2).length = 2 ∧
    (runChain (α := String) (.ok "idle")
        [("a", M.throw "boom"), ("b", M.pure "done")] ServerState.init).2
      = (runChain (α := String) (.error "previous failed")
          [("a", M.throw "boom"), ("b", M.pure "done")] ServerState.init).2 := by
  constructor
  · exact (task_queue_fifo_liveness.1 [("a", M.throw "boom"), ("b", M.pure "done")]
      ServerState.init (.ok "idle") (.error "previous failed")).1
  · exact (task_queue_fifo_liveness.1 [("a", M.throw "boom"), ("b", M.pure "done")]
      ServerState.init (.ok "idle") (.error "previous failed")).2.1

/-!
### C4: requests against an absent engine are still queued
-/

/-- C4 (amended): when the device engine is unavailable, a speak, chat or play
request still fails with `Engine not ready` from the caller's point of view,
but the request IS enqueued: the engine check runs inside the queued task
body, so the queue depth is incremented and decremented and the queue status
fields (`lastTaskType`, `lastTaskError`, `lastTaskFinishedAt`) record the
failed task. -/
theorem engine_not_ready_queued (env : Env) (s : ServerState)
    (heng : env.engineReady = false) :
    (∀ body : SpeakBody, jsTrim body.text ≠ [] →
      handleSpeak env body s =
        (.error "Engine not ready",
         { s with lastTaskType := some "api:speak",
                  lastTaskError := some { type := "api:speak",
                                          message := "Engine not ready", atMs := s.now },
                  lastTaskFinishedAt := some s.now })) ∧
    (∀ body : SpeakBody, jsTrim body.text ≠ [] →
      handleChat env body s =
        (.error "Engine not ready",
         { s with lastTaskType := some "api:chat",
                  lastTaskError := some { type := "api:chat",
                                          message := "Engine not ready", atMs := s.now },
                  lastTaskFinishedAt := some s.now })) ∧
    (∀ body : PlayBody, jsTrim body.url ≠ [] →
      handlePlay env body s =
        (.error "Engine not ready",
         { s with lastTaskType := some "api:play",
                  lastTaskError := some { type := "api:play",
                                          message := "Engine not ready", atMs := s.now },
                  lastTaskFinishedAt := some s.now })) := by
  refine ⟨?_, ?_, ?_⟩
  · intro body htext
    simp [handleSpeak, htext, enqueueOne, wrappedTask, speakByText,
          M.bind_eq, M.pure_eq, M.bind, M.pure, M.throw, getEngineOrThrow, heng]
  · intro body htext
    simp [handleChat, htext, enqueueOne, wrappedTask, askAndSpeak,
          M.bind_eq, M.pure_eq, M.bind, M.pure, M.throw, getEngineOrThrow, heng]
  · intro body hurl
    simp [handlePlay, hurl, enqueueOne, wrappedTask, playByUrl,
          M.bind_eq, M.pure_eq, M.bind, M.pure, M.throw, getEngineOrThrow, heng]

/-- Witness for C4 (amended): the three handlers applied to a concrete dead
engine. -/
theorem engine_not_ready_queued_witness :
    handleSpeak engineDownEnv { text := str "你好", interrupt := none, storyMode := none }
        ServerState.init =
      (.error "Engine not ready",
       { ServerState.init with
           lastTaskType := some "api:speak",
           lastTaskError := some { type := "api:speak",
                                   message := "Engine not ready", atMs := 0 },
           lastTaskFinishedAt := some 0 }) ∧
    handlePlay engineDownEnv { url := str "http://x/a.mp3", interrupt := none, blocking := none }
        ServerState.init =
      (.error "Engine not ready",
       { ServerState.init with
           lastTaskType := some "api:play",
           lastTaskError := some { type := "api:play",
                                   message := "Engine not ready", atMs := 0 },
           lastTaskFinishedAt := some 0 }) := by
  constructor
  · exact (engine_not_ready_queued engineDownEnv ServerState.init rfl).1
      { text := str "你好", interrupt := none, storyMode := none } (by decide)
  · exact (engine_not_ready_queued engineDownEnv ServerState.init rfl).2.2
      { url := str "http://x/a.mp3", interrupt := none, blocking := none } (by decide)

/-- Counterexample for C4 as stated: with the engine down, a speak request
does touch the queue status — after the request, `lastTaskType` and
`lastTaskError` record the failed `api:speak` task (the claim says queue
depth and queue status are not touched by such a request). -/
theorem engine_not_ready_cex :
    (handleSpeak engineDownEnv { text := str "你好", interrupt := none, storyMode := none }
        ServerState.init).1 = .error "Engine not ready" ∧
    ((handleSpeak engineDownEnv { text := str "你好", interrupt := none, storyMode := none }
        ServerState.init).2).lastTaskType = some "api:speak" ∧
    ((handleSpeak engineDownEnv { text := str "你好", interrupt := none, storyMode := none }
        ServerState.init).2).lastTaskError =
      some { type := "api:speak", message := "Engine not ready", atMs := 0 } := by
  refine ⟨rfl, rfl, rfl⟩

/-!
### C9: non-interrupting speak on a non-synthesizing provider
-/

/-- C9: a speak request with `interrupt = false` against a provider with no
synthesis capability returns mode `xiaomi`, and the full final state shows
that the device abort call is never made: the only device call of the whole
request is the single text play. -/
theorem speak_no_interrupt_frame (env : Env) (rawText : JStr) (s : ServerState)
    (heng : env.engineReady = true)
    (hsyn : env.canSynthesize = false)
    (htext : jsTrim rawText ≠ [])
    (hplay : env.playTextRes (jsTrim rawText) = none) :
    handleSpeak env { text := rawText, interrupt := some false, storyMode := none } s =
      (.ok { mode := "xiaomi", text := jsTrim rawText },
       { s with lastTaskType := some "api:speak",
                lastTaskError := none,
                lastTaskFinishedAt := some s.now,
                lastSpeakMode := some "xiaomi",
                lastSpeakAt := some s.now,
                trace := s.trace ++ [Event.playTextCall (jsTrim rawText)] }) := by
  simp [handleSpeak, htext, enqueueOne, wrappedTask, speakByText,
        M.bind_eq, M.pure_eq, M.bind, M.pure, M.tryCatch,
        getEngineOrThrow, heng, hsyn, playText, hplay, setLastSpeak, ofRes]

/-- Witness for C9: a concrete non-interrupting speak against the `xiaomi`
provider. -/
theorem speak_no_interrupt_frame_witness :
    handleSpeak xiaomiEnv { text := str "你好", interrupt := some false, storyMode := none }
        ServerState.init =
      (.ok { mode := "xiaomi", text := str "你好" },
       { ServerState.init with
           lastTaskType := some "api:speak",
           lastTaskError := none,
           lastTaskFinishedAt := some 0,
           lastSpeakMode := some "xiaomi",
           lastSpeakAt := some 0,
           trace := [Event.playTextCall (str "你好")] }) := by
  have h := speak_no_interrupt_frame xiaomiEnv (str "你好") ServerState.init
    rfl rfl (by decide) rfl
  simpa using h

/-!
### C3: single-shot synthesis failure falls back to the device voice
-/

/-- C3: for a single-shot (non-story) speak on a synthesis-capable provider,
a failure of the synthesis call or of the URL-play device call is caught and
recovered by playing the text through the device's own voice: the caller gets
a successful result and the recorded speak mode is the fallback mode
`xiaomi`. -/
theorem singleshot_fallback (env : Env) (text : JStr) (interrupt : Bool) (s : ServerState)
    (heng : env.engineReady = true)
    (hsyn : env.canSynthesize = true)
    (habort : interrupt = true → env.abortRes = none)
    (hfail : (∃ e, env.synthesize text = .error e) ∨
             (∃ u e, env.synthesize text = .ok u ∧ env.playUrlRes u = some e))
    (hplay : env.playTextRes text = none) :
    (speakByText env text interrupt false s).1 = .ok "xiaomi" ∧
    ((speakByText env text interrupt false s).2).lastSpeakMode = some "xiaomi" := by
  cases interrupt with
  | false =>
    rcases hfail with ⟨e, he⟩ | ⟨u, e, hu, hpe⟩
    · constructor <;>
        simp [speakByText, M.bind_eq, M.pure_eq, M.bind, M.pure, M.tryCatch,
              getEngineOrThrow, heng, hsyn, ttsSynthesize, he, playUrl, playText,
              hplay, setLastSpeak, ofRes]
    · constructor <;>
        simp [speakByText, M.bind_eq, M.pure_eq, M.bind, M.pure, M.tryCatch,
              getEngineOrThrow, heng, hsyn, ttsSynthesize, hu, hpe, playUrl, playText,
              hplay, setLastSpeak, ofRes]
  | true =>
    have hab := habort rfl
    rcases hfail with ⟨e, he⟩ | ⟨u, e, hu, hpe⟩
    · constructor <;>
        simp [speakByText, M.bind_eq, M.pure_eq, M.bind, M.pure, M.tryCatch,
              getEngineOrThrow, heng, hsyn, abortXiaoAI, hab, ttsSynthesize, he,
              playUrl, playText, hplay, setLastSpeak, ofRes]
    · constructor <;>
        simp [speakByText, M.bind_eq, M.pure_eq, M.bind, M.pure, M.tryCatch,
              getEngineOrThrow, heng, hsyn, abortXiaoAI, hab, ttsSynthesize, hu, hpe,
              playUrl, playText, hplay, setLastSpeak, ofRes]

/-- Witness for C3: a concrete single-shot speak whose synthesis always
fails is recovered to mode `xiaomi`. -/
theorem singleshot_fallback_witness :
    (speakByText synthFailEnv (str "你好") true false ServerState.init).1 = .ok "xiaomi" ∧
    ((speakByText synthFailEnv (str "你好") true false ServerState.init).2).lastSpeakMode
      = some "xiaomi" :=
  singleshot_fallback synthFailEnv (str "你好") true ServerState.init
    rfl rfl (fun _ => rfl)
    (Or.inl ⟨"TTS HTTP 请求失败: 500", rfl⟩) rfl

/-!
### C2: story-mode synthesis failure
-/

/-- C2 (amended): a synthesis failure on any story chunk aborts all remaining
chunks — the loop stops at the failing synthesis call, with no further
synthesis or play — and the error propagates out of `speakStoryMode`; but it
does not reach the original caller as a failed result: the surrounding
try/catch of `speakByText` recovers it by playing the full text through the
device's own voice, so the caller receives a successful result with the
fallback mode `xiaomi`. -/
theorem story_synthesis_failure :
    (∀ (env : Env) (i : Nat) (chunk : JStr) (rest : List JStr) (s : ServerState)
        (e : String),
      env.synthesize chunk = .error e →
      storyChunkLoop env i (chunk :: rest) s =
        (.error e, { s with trace := s.trace ++ [Event.synthCall chunk] })) ∧
    (∀ (env : Env) (text : JStr) (s : ServerState) (e : String) (chunk : JStr)
        (rest : List JStr),
      env.engineReady = true →
      env.canSynthesize = true →
      splitTextForStory text env.firstChunkMaxChars
          (if env.normalChunkMaxChars = 0 then env.firstChunkMaxChars
           else env.normalChunkMaxChars) = chunk :: rest →
      env.synthesize chunk = .error e →
      env.playTextRes text = none →
      (speakByText env text false true s).1 = .ok "xiaomi" ∧
      ((speakByText env text false true s).2).lastSpeakMode = some "xiaomi") := by
  constructor
  · intro env i chunk rest s e hsfail
    simp [storyChunkLoop, M.bind_eq, M.bind, ttsSynthesize, hsfail]
  · intro env text s e chunk rest heng hsyn hchunks hsfail hplay
    constructor <;>
      simp [speakByText, speakStoryMode, storyChunkLoop,
            M.bind_eq, M.pure_eq, M.bind, M.pure, M.tryCatch,
            getEngineOrThrow, heng, hsyn, hchunks, hsfail, ttsSynthesize,
            playText, hplay, setLastSpeak, ofRes]

/-- Witness for C2 (amended): a mid-story failure aborts the remaining chunks
at the failing synthesis call, and a story whose first chunk fails to
synthesize is recovered to the fallback mode. -/
theorem story_synthesis_failure_witness :
    storyChunkLoop storyFailEnv 1 [str "第二句。第三句。"] ServerState.init =
      (.error "TTS 服务错误: code=3001, message=bad",
       { ServerState.init with trace := [Event.synthCall (str "第二句。第三句。")] }) ∧
    (speakByText synthFailEnv (str "第一句。第二句。第三句。") false true
        ServerState.init).1 = .ok "xiaomi" := by
  constructor
  · have h := story_synthesis_failure.1 storyFailEnv 1 (str "第二句。第三句。") []
      ServerState.init "TTS 服务错误: code=3001, message=bad" (by rfl)
    simpa using h
  · exact (story_synthesis_failure.2 synthFailEnv (str "第一句。第二句。第三句。")
      ServerState.init "TTS HTTP 请求失败: 500" (str "第一句。")
      [str "第二句。第三句。"] rfl rfl (by rfl) rfl rfl).1

/-- Counterexample for C2 as stated: with a provider that synthesizes the
first chunk of the example text and fails on the second, the story loop fails
inside `speakStoryMode`, yet the original caller of `speakByText` receives a
successful result (mode `xiaomi`), contradicting the claim that the caller
never receives a successful result after a story-mode synthesis failure. -/
theorem story_synthesis_failure_cex :
    (speakStoryMode storyFailEnv (str "第一句。第二句。第三句。") ServerState.init).1
      = .error "TTS 服务错误: code=3001, message=bad" ∧
    (speakByText storyFailEnv (str "第一句。第二句。第三句。") true true
        ServerState.init).1 = .ok "xiaomi" ∧
    ((speakByText storyFailEnv (str "第一句。第二句。第三句。") true true
        ServerState.init).2).lastSpeakMode = some "xiaomi" := by
  refine ⟨rfl, rfl, rfl⟩

/-!
### C6: story pacing
-/

theorem M.bind_ok {α β : Type} {m : M α} {f : α → M β} {s s' : ServerState} {b : β}
    (h : M.bind m f s = (.ok b, s')) :
    ∃ a s₁, m s = (.ok a, s₁) ∧ f a s₁ = (.ok b, s') := by
  unfold M.bind at h
  rcases hms : m s with ⟨r, s₁⟩
  rw [hms] at h
  cases r with
  | ok a => exact ⟨a, s₁, rfl, h⟩
  | error e => simp at h

theorem ttsSynthesize_eq (env : Env) (t : JStr) (s : ServerState) :
    ttsSynthesize env t s =
      (env.synthesize t, { s with trace := s.trace ++ [Event.synthCall t] }) := rfl

theorem playUrl_eq (env : Env) (u : JStr) (b : Bool) (s : ServerState) :
    playUrl env u b s =
      (ofRes (env.playUrlRes u),
       { s with trace := s.trace ++ [Event.playUrlCall u b] }) := rfl

theorem getEngineOrThrow_ok {env : Env} {s s' : ServerState} {u : Unit}
    (h : getEngineOrThrow env s = (.ok u, s')) : s' = s := by
  unfold getEngineOrThrow at h
  by_cases he : env.engineReady <;> simp [he] at h
  exact h.symm

/-- A successful playback wait consists of zero or more polls that observed
the device playing, followed by one poll that observed it idle; nothing else
is appended to the trace. -/
theorem waitLoop_ok {env : Env} :
    ∀ (fuel elapsed : Nat) (s s' : ServerState) (u : Unit),
      waitLoop env fuel elapsed s = (.ok u, s') →
      ∃ pres,
        s'.trace = s.trace ++ pres ++ [Event.pollCall false] ∧
        (∀ e ∈ pres, ∃ v, e = Event.pollCall v) := by
  intro fuel
  induction fuel with
  | zero =>
    intro elapsed s s' u h
    simp [waitLoop, M.throw] at h
  | succ fuel ih =>
    intro elapsed s s' u h
    simp only [waitLoop, pollStatus] at h
    by_cases ht : elapsed < env.waitTimeoutMs
    · rw [if_pos ht] at h
      by_cases hp : env.isPlaying s.pollCount
      · rw [if_pos hp] at h
        obtain ⟨pres, htrace, hpres⟩ := ih _ _ _ _ h
        refine ⟨Event.pollCall (env.isPlaying s.pollCount) :: pres, ?_, ?_⟩
        · simpa using htrace
        · intro e he
          rcases List.mem_cons.mp he with h' | h'
          · exact ⟨_, h'⟩
          · exact hpres e h'
      · rw [if_neg hp] at h
        injection h with h1 h2
        refine ⟨[], ?_, by simp⟩
        rw [← h2]
        simp
        exact (Bool.not_eq_true _).mp hp
    · rw [if_neg ht] at h
      simp at h

/-- Scanning past a block's polls: a play command placed immediately after a
quiet poll satisfies the pacing check, whatever preceded the polls. -/
theorem paced_block_step (pres : List Event) :
    ∀ (prev : Event) (u : JStr) (l : List Event),
      (∀ e ∈ pres, ∃ v, e = Event.pollCall v) →
      pacedAfterFirstPlay prev
          (pres ++ Event.pollCall false :: Event.playUrlCall u false :: l)
        = pacedAfterFirstPlay (Event.playUrlCall u false) l := by
  induction pres with
  | nil =>
    intro prev u l _
    simp [pacedAfterFirstPlay]
  | cons e pres ih =>
    intro prev u l hall
    obtain ⟨v, hv⟩ := hall e (by simp)
    subst hv
    simpa [pacedAfterFirstPlay] using ih _ u l (fun e' he' => hall e' (by simp [he']))

/-- A concatenation of well-paced blocks scans cleanly from any starting
point: every play command in it is immediately preceded by a quiet poll. -/
theorem paced_blocks (blocks : List (List Event)) :
    ∀ prev : Event,
      (∀ b ∈ blocks, BlockGood b) →
      pacedAfterFirstPlay prev blocks.flatten = true := by
  induction blocks with
  | nil => intro prev _; simp [pacedAfterFirstPlay]
  | cons b bs ih =>
    intro prev hall
    obtain ⟨chunk, pres, url, hb, hpres⟩ := hall b (by simp)
    subst hb
    rw [List.flatten_cons]
    have : (Event.synthCall chunk ::
        (pres ++ [Event.pollCall false, Event.playUrlCall url false])) ++ bs.flatten
        = Event.synthCall chunk ::
            (pres ++ Event.pollCall false :: Event.playUrlCall url false :: bs.flatten) := by
      simp
    rw [this]
    show pacedAfterFirstPlay (Event.synthCall chunk)
        (pres ++ Event.pollCall false :: Event.playUrlCall url false :: bs.flatten) = true
    rw [paced_block_step pres _ url bs.flatten hpres]
    exact ih _ (fun b' hb' => hall b' (by simp [hb']))


/-- A successful run of the story loop from a non-initial index appends to
the trace exactly a sequence of well-paced blocks, one per chunk. -/
theorem storyChunkLoop_tail_ok {env : Env} :
    ∀ (cs : List JStr) (i : Nat) (s s' : ServerState) (u : Unit),
      storyChunkLoop env (i + 1) cs s = (.ok u, s') →
      ∃ blocks : List (List Event),
        s'.trace = s.trace ++ blocks.flatten ∧
        (∀ b ∈ blocks, BlockGood b) := by
  intro cs
  induction cs with
  | nil =>
    intro i s s' u h
    simp [storyChunkLoop, M.pure] at h
    exact ⟨[], by rw [← h]; simp, by simp⟩
  | cons c rest ih =>
    intro i s s' u h
    simp only [storyChunkLoop, M.bind_eq] at h
    obtain ⟨url, s₁, hsy, h⟩ := M.bind_ok h
    rw [if_neg (by omega : ¬(i + 1 = 0))] at h
    obtain ⟨u₂, s₂, hw, h⟩ := M.bind_ok h
    obtain ⟨u₃, s₃, hp, h⟩ := M.bind_ok h
    rw [show ttsSynthesize env c s
          = (env.synthesize c, { s with trace := s.trace ++ [Event.synthCall c] })
        from rfl] at hsy
    injection hsy with hsy1 hsy2
    subst hsy2
    obtain ⟨u₄, s₁', hgo, hwl⟩ := M.bind_ok
      (show M.bind (getEngineOrThrow env)
          (fun _ => waitLoop env (env.waitTimeoutMs + 1) 0)
          { s with trace := s.trace ++ [Event.synthCall c] } = (.ok u₂, s₂) from by
        simpa only [waitForAudioComplete, M.bind_eq] using hw)
    have hs₁' : s₁' = { s with trace := s.trace ++ [Event.synthCall c] } :=
      getEngineOrThrow_ok hgo
    subst hs₁'
    obtain ⟨pres, htr₂, hpres⟩ := waitLoop_ok _ _ _ _ _ hwl
    rw [show playUrl env url false s₂
          = (ofRes (env.playUrlRes url),
             { s₂ with trace := s₂.trace ++ [Event.playUrlCall url false] })
        from rfl] at hp
    injection hp with hp1 hp2
    subst hp2
    obtain ⟨blocks, htr', hblocks⟩ := ih (i + 1) _ _ _ h
    refine ⟨(Event.synthCall c ::
        (pres ++ [Event.pollCall false, Event.playUrlCall url false])) :: blocks, ?_, ?_⟩
    · rw [htr']
      simp only [htr₂]
      simp
    · intro b hb
      rcases List.mem_cons.mp hb with h' | h'
      · exact h' ▸ ⟨c, pres, url, rfl, hpres⟩
      · exact hblocks b h'

/-- With a device that always reports playing, the wait loop always fails
with the playback-wait-timeout error, appending one playing poll per allowed
iteration and nothing else. -/
theorem waitLoop_busy {env : Env} (hbusy : ∀ k, env.isPlaying k = true) :
    ∀ (fuel elapsed : Nat) (s : ServerState),
      waitLoop env fuel elapsed s =
        (.error "等待音频播放超时",
         { s with
             pollCount := s.pollCount +
               busyIters env.pollIntervalMs env.waitTimeoutMs fuel elapsed,
             trace := s.trace ++
               List.replicate
                 (busyIters env.pollIntervalMs env.waitTimeoutMs fuel elapsed)
                 (Event.pollCall true) }) := by
  intro fuel
  induction fuel with
  | zero =>
    intro elapsed s
    simp [waitLoop, M.throw, busyIters]
  | succ fuel ih =>
    intro elapsed s
    by_cases ht : elapsed < env.waitTimeoutMs
    · simp only [waitLoop, pollStatus, if_pos ht, hbusy s.pollCount]
      rw [ih]
      simp only [busyIters, if_pos ht]
      simp [List.replicate_succ, Nat.add_assoc, Nat.add_comm, Nat.add_left_comm]
    · simp only [waitLoop, pollStatus, if_neg ht]
      simp [busyIters, if_neg ht]

/-- C6: for every successful story-mode playback, the device-call trace is
well paced — no playback-status poll precedes the first play command (chunk 0
plays immediately, with no wait), and the play command of every chunk i > 0
is immediately preceded by a poll that observed the device no longer playing;
and when the device still reports playing on every poll, the wait times out:
the operation fails with the playback-wait-timeout error and chunk 1 is never
played — chunk 0's play command is the only one in the trace. -/
theorem story_pacing :
    (∀ (env : Env) (text : JStr) (s : ServerState) (r : String) (s' : ServerState),
      speakStoryMode env text s = (.ok r, s') →
      storyPaced (s'.trace.drop s.trace.length) = true) ∧
    (∀ (env : Env) (text : JStr) (s : ServerState) (c0 c1 : JStr) (rest : List JStr)
        (u0 u1 : JStr),
      env.engineReady = true →
      splitTextForStory text env.firstChunkMaxChars
          (if env.normalChunkMaxChars = 0 then env.firstChunkMaxChars
           else env.normalChunkMaxChars) = c0 :: c1 :: rest →
      env.synthesize c0 = .ok u0 →
      env.playUrlRes u0 = none →
      env.synthesize c1 = .ok u1 →
      (∀ k, env.isPlaying k = true) →
      (speakStoryMode env text s).1 = .error "等待音频播放超时" ∧
      (((speakStoryMode env text s).2).trace.drop s.trace.length).filter isPlayUrlEvent
        = [Event.playUrlCall u0 false]) := by
  constructor
  · intro env text s r s' h
    simp only [speakStoryMode, M.bind_eq, M.pure_eq] at h
    obtain ⟨u₀, s₀, hgo, hrest⟩ := M.bind_ok h
    obtain ⟨u₁, s₁, hloop, hpure⟩ := M.bind_ok hrest
    have hs₀ : s₀ = s := getEngineOrThrow_ok hgo
    subst hs₀
    simp only [M.pure] at hpure
    injection hpure with hpure1 hpure2
    subst hpure2
    rcases hcs : splitTextForStory text env.firstChunkMaxChars
        (if env.normalChunkMaxChars = 0 then env.firstChunkMaxChars
         else env.normalChunkMaxChars) with _ | ⟨c, cs⟩
    · rw [hcs] at hloop
      simp [storyChunkLoop, M.pure] at hloop
      rw [← hloop]
      simp [storyPaced]
    · rw [hcs] at hloop
      simp only [storyChunkLoop, M.bind_eq] at hloop
      obtain ⟨url, t₁, hsy, hloop2⟩ := M.bind_ok hloop
      simp only [if_true] at hloop2
      obtain ⟨u₂, t₂, hp, hloop3⟩ := M.bind_ok hloop2
      rw [ttsSynthesize_eq] at hsy
      injection hsy with hsy1 hsy2
      subst hsy2
      rw [playUrl_eq] at hp
      injection hp with hp1 hp2
      subst hp2
      obtain ⟨blocks, htr, hblocks⟩ := storyChunkLoop_tail_ok cs 0 _ _ _ hloop3
      rw [htr]
      simp only [List.append_assoc, List.singleton_append, List.cons_append,
                 List.nil_append]
      rw [List.drop_left]
      show pacedAfterFirstPlay (Event.playUrlCall url false) blocks.flatten = true
      exact paced_blocks blocks _ hblocks
  · intro env text s c0 c1 rest u0 u1 heng hchunks hs0 hp0 hs1 hbusy
    have hwl := waitLoop_busy hbusy
    have hrun : speakStoryMode env text s =
        (.error "等待音频播放超时",
         { s with
             pollCount := s.pollCount +
               busyIters env.pollIntervalMs env.waitTimeoutMs
                 (env.waitTimeoutMs + 1) 0,
             trace := (s.trace ++
                 [Event.synthCall c0, Event.playUrlCall u0 false, Event.synthCall c1]) ++
               List.replicate
                 (busyIters env.pollIntervalMs env.waitTimeoutMs
                   (env.waitTimeoutMs + 1) 0)
                 (Event.pollCall true) }) := by
      simp only [speakStoryMode, M.bind_eq, M.pure_eq, hchunks, storyChunkLoop,
                 waitForAudioComplete, M.bind_eq]
      simp [M.bind, M.pure, getEngineOrThrow, heng, ttsSynthesize, hs0, hs1,
            playUrl, hp0, ofRes, hwl]
    rw [hrun]
    refine ⟨rfl, ?_⟩
    have hfilter : ∀ n : Nat,
        (List.replicate n (Event.pollCall true)).filter isPlayUrlEvent = [] := by
      intro n
      rw [List.filter_eq_nil_iff]
      intro e he
      rw [List.eq_of_mem_replicate he]
      decide
    show (((s.trace ++ [Event.synthCall c0, Event.playUrlCall u0 false,
          Event.synthCall c1]) ++
        List.replicate
          (busyIters env.pollIntervalMs env.waitTimeoutMs (env.waitTimeoutMs + 1) 0)
          (Event.pollCall true)).drop s.trace.length).filter isPlayUrlEvent
      = [Event.playUrlCall u0 false]
    rw [List.append_assoc, List.drop_left]
    rw [List.filter_append, hfilter]
    rfl

/-- Witness for C6: the healthy environment (device idle at every poll) runs
the three-sentence story to completion with a well-paced trace, and the
always-busy environment fails the same story with the playback-wait-timeout
error after playing only chunk 0. -/
theorem story_pacing_witness :
    storyPaced (((speakStoryMode demoEnv (str "第一句。第二句。第三句。")
        ServerState.init).2).trace.drop 0) = true ∧
    (speakStoryMode busyEnv (str "第一句。第二句。第三句。") ServerState.init).1
      = .error "等待音频播放超时" ∧
    (((speakStoryMode busyEnv (str "第一句。第二句。第三句。")
        ServerState.init).2).trace.drop 0).filter isPlayUrlEvent
      = [Event.playUrlCall (str "u第一句。") false] := by
  refine ⟨?_, ?_, ?_⟩
  · exact story_pacing.1 demoEnv (str "第一句。第二句。第三句。") ServerState.init
      "story" _ rfl
  · exact (story_pacing.2 busyEnv (str "第一句。第二句。第三句。") ServerState.init
      (str "第一句。") (str "第二句。第三句。") [] (str "u第一句。")
      (str "u第二句。第三句。") rfl (by rfl) rfl rfl rfl (fun _ => rfl)).1
  · exact (story_pacing.2 busyEnv (str "第一句。第二句。第三句。") ServerState.init
      (str "第一句。") (str "第二句。第三句。") [] (str "u第一句。")
      (str "u第二句。第三句。") rfl (by rfl) rfl rfl rfl (fun _ => rfl)).2

end MiGPT
